import Mathlib

/-!
Verification of the RTV echo-cancellation engine's host/worker pipeline.

The development shallowly embeds:
* the web worker's message handler (`src/workers/audio-processor.worker.js`):
  worker state is the optional loaded WASM module handle; the outcomes of the
  two external asynchronous calls (`loadWasmModule` and
  `wasmModule.processAudio`) are passed in as `Except` oracles, since the WASM
  module's own code is not part of the embedded sources;
* the host-side `processAudio` progress simulation (`App.tsx`);
* the audio utility functions `calculateRMS` and `normalizeAudio`
  (`audio-utils.js`), over a model of JS numbers with the IEEE special values
  the claims exercise (division by zero, multiplication with infinity, NaN
  propagation; all arithmetic in the claims' scope is exact, so rationals
  carry the finite values);
* the adaptive-filter engine (validation, NLMS core, scheduler), which the
  sources only call into: those definitions are modelled from the spec.
-/

/-- A decoded sample buffer (JS `Float32Array` contents), finite values as
rationals: every value the embedded claims exercise is exactly representable. -/
abbrev SampleBuf := List ℚ

/-- A message posted by the worker via `self.postMessage`.  JS message objects
carry only the fields each `postMessage` call site sets; absent fields are
`none`.  The `jobId` field is included to state the protocol claims about job
identifiers: the worker's call sites never set it. -/
structure WorkerMsg where
  type : String
  success : Option Bool
  data : Option SampleBuf
  error : Option String
  message : Option String
  jobId : Option ℕ
  deriving DecidableEq

/-- A message received by the worker: the handler destructures
`const { type, data, settings } = event.data`.  Settings are passed through
opaquely to the WASM call, so their payload is not interpreted here. -/
structure HostMsg where
  type : String
  data : Option SampleBuf
  deriving DecidableEq

/-- The `default:` branch reply:
`self.postMessage({ type: 'error', message: ... })`. -/
def errMsg (m : String) : WorkerMsg := ⟨"error", none, none, none, some m, none⟩

/-- `initWasmModule`: awaits `loadWasmModule()`; on success stores the module
handle and posts `{ type: 'init', success: true }`; on failure posts
`{ type: 'init', success: false, error }` and leaves the handle as it was. -/
def initWasmModule (st : Option Unit) (loadResult : Except String Unit) :
    Option Unit × List WorkerMsg :=
  match loadResult with
  | Except.ok _ => (some (), [⟨"init", some true, none, none, none, none⟩])
  | Except.error e => (st, [⟨"init", some false, none, some e, none, none⟩])

/-- `processAudio(audioData, settings)`: throws when `wasmModule` is null,
otherwise forwards to the WASM module and posts the result; every path posts
exactly one `processed` message.  Returns the posted messages together with a
flag recording whether the WASM processing call was reached. -/
def processAudio (wasm : Option Unit) (wasmResult : Except String SampleBuf) :
    List WorkerMsg × Bool :=
  match wasm with
  | none =>
      ([⟨"processed", some false, none, some ("WASM module not initialized"), none, none⟩],
        false)
  | some _ =>
      match wasmResult with
      | Except.ok out => ([⟨"processed", some true, some out, none, none, none⟩], true)
      | Except.error e => ([⟨"processed", some false, none, some e, none, none⟩], true)

/-- The worker's `message` event listener: dispatches on `type` over the cases
`init` and `process`, and replies with a single `error` message naming any
other type.  Result: new worker state, posted messages, and whether WASM
processing was reached. -/
def handleMessage (st : Option Unit) (loadResult : Except String Unit)
    (wasmResult : Except String SampleBuf) (msg : HostMsg) :
    Option Unit × List WorkerMsg × Bool :=
  if msg.type = "init" then
    let (st', out) := initWasmModule st loadResult
    (st', out, false)
  else if msg.type = "process" then
    let (out, called) := processAudio st wasmResult
    (st, out, called)
  else
    (st, [errMsg ("Unknown message type: " ++ msg.type)], false)

/-- Host-side simulated progress (`App.tsx` `updateProgress`):
`Math.min(Math.floor((currentStep / totalSteps) * 100), 99)`.  For every step
the code performs (`currentStep ∈ [1, 20]`, `totalSteps = 20`) the JS double
computation agrees exactly with natural floor division. -/
def simulatedProgress (currentStep totalSteps : ℕ) : ℕ :=
  min (currentStep * 100 / totalSteps) 99

/-- The sequence of values passed to `setProcessingProgress` on the success
path of the host's `processAudio`: the initial `0`, the twenty simulated
steps, then the final `100` after the processed blob is assembled. -/
def hostProgressValues : List ℕ :=
  0 :: ((List.range 20).map (fun k => simulatedProgress (k + 1) 20) ++ [100])

/-- The progress formula the spec prescribes, following the spec's words:
`progressPercent = floor(100 * samplesProcessed / totalSamples)`.  Stated for
comparison with `simulatedProgress`, the value the code actually reports. -/
def specProgress (samplesProcessed totalSamples : ℕ) : ℕ :=
  100 * samplesProcessed / totalSamples

/-- Modelled from the spec: `ProcessingSettings` (the WASM engine that
interprets them is not among the embedded sources). -/
structure PSettings where
  filterLength : ℤ
  stepSize : ℚ
  deriving DecidableEq

/-- Modelled from the spec: settings validity — `filterLength` an integer in
`[128, 2048]`, 128-aligned, and `stepSize` in `(0, 0.2]`. -/
def validSettings (s : PSettings) : Prop :=
  128 ≤ s.filterLength ∧ s.filterLength ≤ 2048 ∧ s.filterLength % 128 = 0 ∧
    0 < s.stepSize ∧ s.stepSize ≤ 1 / 5

instance (s : PSettings) : Decidable (validSettings s) := by
  unfold validSettings; infer_instance

/-- Modelled from the spec: the engine error taxonomy (§7). -/
inductive EngineError where
  | validationError
  | busy
  | notInitialized
  | decodeError
  | divergenceError
  deriving DecidableEq

/-- Modelled from the spec: `FilterState` — coefficients and a sliding history
window, each of length `filterLength`; history kept newest first. -/
structure FilterState where
  coefficients : List ℚ
  history : List ℚ
  deriving DecidableEq

/-- Modelled from the spec: the fixed internal regularization epsilon
("small positive constant, fixed internally"). -/
def epsilon : ℚ := 1 / 1000000

/-- Dot product of two coefficient/history vectors. -/
def dot (a b : List ℚ) : ℚ := (List.zipWith (fun x y => x * y) a b).sum

/-- Clamp a sample to `[-1, 1]`. -/
def clamp (x : ℚ) : ℚ := max (-1) (min 1 x)

/-- Modelled from the spec: `reset(filterLength, stepSize, epsilon)` —
coefficients and history allocated all zero, of length `filterLength`. -/
def initFilterState (filterLength : ℕ) : FilterState :=
  ⟨List.replicate filterLength 0, List.replicate filterLength 0⟩

/-- Modelled from the spec: `processSample` of the NLMS core — predict from
history, subtract, clamp, normalized-step coefficient update, push the input
into history evicting the oldest sample. -/
def processSample (stepSize : ℚ) (st : FilterState) (x : ℚ) : FilterState × ℚ :=
  let h := st.history
  let yhat := dot st.coefficients h
  let e := clamp (x - yhat)
  let mu := stepSize / (dot h h + epsilon)
  let coefficients := List.zipWith (fun c hi => c + mu * e * hi) st.coefficients h
  let history := (x :: h).take h.length
  (⟨coefficients, history⟩, e)

/-- Modelled from the spec: the scheduler's pass over the whole signal through
one persistent `FilterState`, producing one output sample per input sample in
order (chunk boundaries only yield control and report progress; they do not
change the computation). -/
def processSignal (stepSize : ℚ) : FilterState → List ℚ → FilterState × List ℚ
  | st, [] => (st, [])
  | st, x :: xs =>
    let (st', e) := processSample stepSize st x
    let (st'', es) := processSignal stepSize st' xs
    (st'', e :: es)

/-- Modelled from the spec: `submit(signal, settings)` — rejected with `Busy`
while a job is Running, then settings are validated before any job is created;
only on valid settings is a job created and run. -/
def submit (running : Bool) (s : PSettings) (signal : List ℚ) :
    Except EngineError (List ℚ) :=
  if running then Except.error EngineError.busy
  else if validSettings s then
    Except.ok (processSignal s.stepSize (initFilterState s.filterLength.toNat) signal).2
  else Except.error EngineError.validationError

/-- Modelled from the spec: an engine instance; `lastState` is whatever
`FilterState` the previous job left behind (destroyed at job termination, so
a fresh engine holds none). -/
structure Engine where
  lastState : Option FilterState
  deriving DecidableEq

/-- Modelled from the spec: a freshly initialized engine. -/
def freshEngine : Engine := ⟨none⟩

/-- Modelled from the spec: running one job on an engine — processing always
starts from `reset`'s all-zero `FilterState` (FilterState is owned exclusively
by one job and never shared across jobs). -/
def runJob (_e : Engine) (s : PSettings) (signal : List ℚ) : Engine × List ℚ :=
  let (st, out) := processSignal s.stepSize (initFilterState s.filterLength.toNat) signal
  (⟨some st⟩, out)

/-- A JS number (IEEE-754 double) as the audio utilities use them: a finite
value, an infinity, or NaN.  Finite values are carried as exact rationals: on
the inputs the claims exercise (zeros, the constant `0.3`, sums of squares of
zeros) every JS double operation is exact, so no rounding is modelled. -/
inductive JSNum where
  | fin (q : ℚ)
  | inf
  | ninf
  | nan
  deriving DecidableEq

/-- JS `+` on numbers: NaN propagates; opposite infinities give NaN. -/
def jsAdd : JSNum → JSNum → JSNum
  | JSNum.fin a, JSNum.fin b => JSNum.fin (a + b)
  | JSNum.fin _, JSNum.inf => JSNum.inf
  | JSNum.fin _, JSNum.ninf => JSNum.ninf
  | JSNum.inf, JSNum.fin _ => JSNum.inf
  | JSNum.ninf, JSNum.fin _ => JSNum.ninf
  | JSNum.inf, JSNum.inf => JSNum.inf
  | JSNum.ninf, JSNum.ninf => JSNum.ninf
  | JSNum.inf, JSNum.ninf => JSNum.nan
  | JSNum.ninf, JSNum.inf => JSNum.nan
  | _, _ => JSNum.nan

/-- JS `*` on numbers: NaN propagates; zero times an infinity is NaN. -/
def jsMul : JSNum → JSNum → JSNum
  | JSNum.fin a, JSNum.fin b => JSNum.fin (a * b)
  | JSNum.fin a, JSNum.inf =>
      if a = 0 then JSNum.nan else if 0 < a then JSNum.inf else JSNum.ninf
  | JSNum.fin a, JSNum.ninf =>
      if a = 0 then JSNum.nan else if 0 < a then JSNum.ninf else JSNum.inf
  | JSNum.inf, JSNum.fin b =>
      if b = 0 then JSNum.nan else if 0 < b then JSNum.inf else JSNum.ninf
  | JSNum.ninf, JSNum.fin b =>
      if b = 0 then JSNum.nan else if 0 < b then JSNum.ninf else JSNum.inf
  | JSNum.inf, JSNum.inf => JSNum.inf
  | JSNum.ninf, JSNum.ninf => JSNum.inf
  | JSNum.inf, JSNum.ninf => JSNum.ninf
  | JSNum.ninf, JSNum.inf => JSNum.ninf
  | _, _ => JSNum.nan

/-- JS `/` on numbers: a nonzero finite value divided by (positive) zero is a
signed infinity; `0 / 0` is NaN; NaN propagates; infinity over infinity is
NaN.  The buffers at hand contain no negative zero, so zero is unsigned. -/
def jsDiv : JSNum → JSNum → JSNum
  | JSNum.fin a, JSNum.fin b =>
      if b = 0 then
        if a = 0 then JSNum.nan else if 0 < a then JSNum.inf else JSNum.ninf
      else JSNum.fin (a / b)
  | JSNum.fin _, JSNum.inf => JSNum.fin 0
  | JSNum.fin _, JSNum.ninf => JSNum.fin 0
  | JSNum.inf, JSNum.fin b =>
      if 0 ≤ b then JSNum.inf else JSNum.ninf
  | JSNum.ninf, JSNum.fin b =>
      if 0 ≤ b then JSNum.ninf else JSNum.inf
  | _, _ => JSNum.nan

/-- JS `Math.sqrt`: NaN for NaN and for negative arguments, infinity for
infinity; on nonnegative finite values the model uses `Rat.sqrt`, exact at the
perfect squares (in particular at `0`, the only finite argument the claims
reach). -/
def jsSqrt : JSNum → JSNum
  | JSNum.fin q => if q < 0 then JSNum.nan else JSNum.fin (Rat.sqrt q)
  | JSNum.inf => JSNum.inf
  | JSNum.ninf => JSNum.nan
  | JSNum.nan => JSNum.nan

/-- `calculateRMS(buffer)`: sum the squares with a running accumulator
starting at `0`, divide by `buffer.length`, take the square root.  An empty
buffer divides `0` by `0`, yielding NaN. -/
def calculateRMS (buffer : List JSNum) : JSNum :=
  let sum := buffer.foldl (fun acc x => jsAdd acc (jsMul x x)) (JSNum.fin 0)
  jsSqrt (jsDiv sum (JSNum.fin (buffer.length : ℚ)))

/-- `normalizeAudio(buffer, targetRMS = 0.3)`: gain is
`targetRMS / calculateRMS(buffer)` with no guard against a zero or NaN RMS;
every element is scaled by the gain. -/
def normalizeAudio (buffer : List JSNum) (targetRMS : JSNum) : List JSNum :=
  let gain := jsDiv targetRMS (calculateRMS buffer)
  buffer.map (fun x => jsMul x gain)

/-- Claim C1, counterexample: progress is not
`floor(100 * samplesProcessed / totalSamples)`.  The single WASM call
completes all samples right after simulated step 1, so at simulated step 2 a
1000-sample job has all 1000 samples processed; the code reports
`simulatedProgress 2 20 = 10` where the claimed formula gives `100`. -/
theorem c1_progress_formula_refuted :
    simulatedProgress 2 20 = 10 ∧ specProgress 1000 1000 = 100 ∧
      simulatedProgress 2 20 ≠ specProgress 1000 1000 := by
  decide

/-- Claim C1, amended: progress is simulated, not samples-based — the host
reports `0`, then `min(floor(100·k/20), 99)` after the `k`-th of 20 simulated
steps (each value independent of `samplesProcessed` and strictly below 100),
and `100` is set separately, only at completion. -/
theorem c1_simulated_progress_capped :
    (hostProgressValues.dropLast.all (fun v => decide (v < 100))) = true ∧
      hostProgressValues.getLast? = some 100 := by
  decide

/-- Helper: the host's reported progress values are strictly increasing. -/
theorem hostProgress_chain : List.Chain' (fun a b => a < b) hostProgressValues := by
  have h : hostProgressValues =
      [0, 5, 10, 15, 20, 25, 30, 35, 40, 45, 50, 55, 60, 65, 70, 75, 80, 85, 90,
        95, 99, 100] := by
    decide
  rw [h]
  simp only [List.chain'_cons, List.chain'_singleton, and_true]
  omega

/-- Claim C2: per `process` request the worker emits exactly one terminal
`processed` message (success or failure) and no `progress` messages, so the
per-job progress-message sequence is (vacuously) strictly increasing; the
host-side simulated progress value sequence is strictly increasing as well. -/
theorem c2_one_terminal_result_progress_increasing :
    ∀ (wasm : Option Unit) (r : Except String SampleBuf),
      ((processAudio wasm r).1.countP (fun m => m.type == "processed")) = 1 ∧
        ((processAudio wasm r).1.countP (fun m => m.type == "progress")) = 0 ∧
        List.Chain' (fun a b => a < b) hostProgressValues := by
  intro wasm r
  refine ⟨?_, ?_, hostProgress_chain⟩ <;>
    cases wasm <;> first
      | rfl
      | cases r <;> rfl

/-- Claim C3, counterexample: the `processed` reply to a `process` request —
a message exchanged after `Init` — carries no `jobId` field. -/
theorem c3_processed_reply_has_no_jobId :
    ((processAudio (some ()) (Except.ok [])).1.all (fun m => m.jobId.isSome)) = false := by
  decide

/-- Claim C3, amended: no message the worker emits carries a `jobId`;
replies are distinguished only by their `type` field, so sequential jobs are
not distinguishable by identifier. -/
theorem c3_no_worker_message_carries_jobId :
    ∀ (st : Option Unit) (lr : Except String Unit) (wr : Except String SampleBuf)
      (msg : HostMsg),
      ((handleMessage st lr wr msg).2.1.all (fun m => m.jobId == none)) = true := by
  intro st lr wr msg
  by_cases h1 : msg.type = "init"
  · cases lr <;> simp [handleMessage, h1, initWasmModule]
  · by_cases h2 : msg.type = "process"
    · cases st
      · simp [handleMessage, h1, h2, processAudio]
      · cases wr <;> simp [handleMessage, h1, h2, processAudio]
    · simp [handleMessage, h1, h2, errMsg]

/-- Claim C4, counterexample: sending `cancel` to a worker whose module is
loaded does not mark anything Cancelled — the worker state is unchanged and
the only reply is an `error` message calling `cancel` an unknown type. -/
theorem c4_cancel_answered_with_unknown_type_error :
    handleMessage (some ()) (Except.ok ()) (Except.ok []) ⟨"cancel", none⟩ =
      (some (), [errMsg ("Unknown message type: cancel")], false) := by
  rfl

/-- Claim C4, amended: cancellation is not implemented — whatever the worker
state and pending data, a `cancel` message leaves the state unchanged,
triggers no processing, and is answered with a single `error` reply naming
the unknown type; no job is marked Cancelled and no filter state exists to be
discarded. -/
theorem c4_no_cancellation_support :
    ∀ (st : Option Unit) (lr : Except String Unit) (wr : Except String SampleBuf)
      (d : Option SampleBuf),
      handleMessage st lr wr ⟨"cancel", d⟩ =
        (st, [errMsg ("Unknown message type: cancel")], false) := by
  intro st lr wr d
  rfl

/-- Claim C5: a `process` request arriving while no WASM module is loaded is
rejected with the not-initialized error as its single terminal `processed`
result, and the WASM processing call is never reached. -/
theorem c5_process_rejected_when_not_initialized :
    ∀ (r : Except String SampleBuf),
      processAudio none r =
        ([⟨"processed", some false, none, some ("WASM module not initialized"), none,
            none⟩], false) := by
  intro r
  rfl

/-- Claim C10: any message whose type is neither `init` nor `process` leaves
the worker state unchanged, triggers no processing, and is answered with
exactly one `error` message naming the unknown type. -/
theorem c10_unknown_type_single_error_no_processing :
    ∀ (st : Option Unit) (lr : Except String Unit) (wr : Except String SampleBuf)
      (msg : HostMsg), msg.type ≠ "init" → msg.type ≠ "process" →
      handleMessage st lr wr msg =
        (st, [errMsg ("Unknown message type: " ++ msg.type)], false) := by
  intro st lr wr msg h1 h2
  simp [handleMessage, h1, h2]

/-- Claim C6: settings are validated before any processing starts — with no
job running, submitting any invalid settings (filterLength outside
`[128, 2048]` or not 128-aligned, or stepSize outside `(0, 0.2]`) yields a
`ValidationError` and no job output is produced. -/
theorem c6_invalid_settings_rejected :
    ∀ (s : PSettings) (signal : List ℚ), ¬ validSettings s →
      submit false s signal = Except.error EngineError.validationError := by
  intro s signal h
  simp [submit, h]

/-- Witness for C6 at the concrete invalid settings
`filterLength = 100, stepSize = 0.05`. -/
theorem c6_invalid_settings_witness :
    ¬ validSettings ⟨100, 1 / 20⟩ ∧
      submit false ⟨100, 1 / 20⟩ [] = Except.error EngineError.validationError :=
  ⟨fun hv => absurd hv.1 (by decide),
    c6_invalid_settings_rejected ⟨100, 1 / 20⟩ [] (fun hv => absurd hv.1 (by decide))⟩

/-- Helper: the filtering pass emits exactly one output sample per input
sample, from any filter state. -/
theorem processSignal_length (ss : ℚ) (st : FilterState) (xs : List ℚ) :
    ((processSignal ss st xs).2).length = xs.length := by
  induction xs generalizing st with
  | nil => rfl
  | cons x xs ih => simpa [processSignal] using ih (processSample ss st x).1

/-- Claim C7: for every valid settings pair and every finite input signal,
the processed output has exactly as many samples as the input. -/
theorem c7_output_length_eq_input_length :
    ∀ (s : PSettings) (xs : List ℚ), validSettings s →
      ((processSignal s.stepSize (initFilterState s.filterLength.toNat) xs).2).length =
        xs.length := by
  intro s xs _
  exact processSignal_length s.stepSize (initFilterState s.filterLength.toNat) xs

/-- Witness for C7 at `filterLength = 128, stepSize = 0.05` on a two-sample
signal. -/
theorem c7_output_length_witness :
    validSettings ⟨128, 1 / 20⟩ ∧
      ((processSignal (PSettings.mk 128 (1 / 20)).stepSize
          (initFilterState (PSettings.mk 128 (1 / 20)).filterLength.toNat)
          [1 / 2, 0]).2).length = 2 :=
  ⟨⟨by decide, by decide, by decide, by norm_num, by norm_num⟩,
    c7_output_length_eq_input_length ⟨128, 1 / 20⟩ [1 / 2, 0]
      ⟨by decide, by decide, by decide, by norm_num, by norm_num⟩⟩

/-- Claim C8: processing is deterministic and leaks no state between jobs —
a job's output does not depend on whatever filter state an earlier job left
on the engine (every job starts from reset's all-zero state), and running the
same input and settings twice in a row reproduces the output bit for bit. -/
theorem c8_deterministic_no_state_leak :
    ∀ (e₁ e₂ : Engine) (s : PSettings) (xs : List ℚ),
      (runJob e₁ s xs).2 = (runJob e₂ s xs).2 ∧
        (runJob (runJob freshEngine s xs).1 s xs).2 = (runJob freshEngine s xs).2 := by
  intro e₁ e₂ s xs
  exact ⟨rfl, rfl⟩

/-- Helper: the running sum of squares of an all-zero buffer is exactly
zero. -/
theorem sumSq_all_zero :
    ∀ (l : List JSNum), (∀ x ∈ l, x = JSNum.fin 0) →
      l.foldl (fun acc x => jsAdd acc (jsMul x x)) (JSNum.fin 0) = JSNum.fin 0 := by
  intro l
  induction l with
  | nil => intro _; rfl
  | cons x xs ih =>
      intro h
      have hx : x = JSNum.fin 0 := h x (by simp)
      have hxs : ∀ y ∈ xs, y = JSNum.fin 0 := fun y hy => h y (by simp [hy])
      subst hx
      have hstep : jsAdd (JSNum.fin 0) (jsMul (JSNum.fin 0) (JSNum.fin 0)) =
          JSNum.fin 0 := by
        simp [jsAdd, jsMul]
      simp only [List.foldl_cons]
      rw [hstep]
      exact ih hxs

/-- Helper: the RMS of a nonempty all-zero buffer is exactly zero. -/
theorem calculateRMS_all_zero (b : JSNum) (bs : List JSNum)
    (h : ∀ x ∈ b :: bs, x = JSNum.fin 0) :
    calculateRMS (b :: bs) = JSNum.fin 0 := by
  have hsum := sumSq_all_zero (b :: bs) h
  have hpos : (0 : ℚ) < (bs.length : ℚ) + 1 := by positivity
  have hne : ((bs.length : ℚ)) + 1 ≠ 0 := ne_of_gt hpos
  have hsqrt : Rat.sqrt 0 = 0 := by decide
  simp [calculateRMS, hsum, jsDiv, hne, jsSqrt, hsqrt]

/-- Claim C9: `normalizeAudio` has no guard against a zero (or NaN) RMS — for
an all-zero buffer the RMS is exactly `0` (and already NaN for the empty
buffer, where `calculateRMS` divides `0` by `0`), the gain `0.3 / RMS` is
infinite (or NaN), and every element of the returned buffer is the non-finite
value NaN. -/
theorem c9_normalize_zero_rms_all_nan :
    ∀ (buffer : List JSNum), (∀ x ∈ buffer, x = JSNum.fin 0) →
      (calculateRMS buffer = JSNum.fin 0 ∨ calculateRMS buffer = JSNum.nan) ∧
        ∀ y ∈ normalizeAudio buffer (JSNum.fin (3 / 10)), y = JSNum.nan := by
  intro buffer h
  cases buffer with
  | nil =>
      refine ⟨Or.inr (by rfl), ?_⟩
      intro y hy
      simp [normalizeAudio] at hy
  | cons b bs =>
      have hrms := calculateRMS_all_zero b bs h
      refine ⟨Or.inl hrms, ?_⟩
      intro y hy
      simp only [normalizeAudio, hrms] at hy
      rcases List.mem_map.1 hy with ⟨x, hx, rfl⟩
      have hx0 : x = JSNum.fin 0 := h x hx
      subst hx0
      have hgain : jsDiv (JSNum.fin (3 / 10)) (JSNum.fin 0) = JSNum.inf := by
        norm_num [jsDiv]
      rw [hgain]
      rfl

/-- Witness for C9 at the concrete one-sample all-zero buffer. -/
theorem c9_normalize_zero_rms_witness :
    (∀ x ∈ [JSNum.fin 0], x = JSNum.fin 0) ∧
      ((calculateRMS [JSNum.fin 0] = JSNum.fin 0 ∨
          calculateRMS [JSNum.fin 0] = JSNum.nan) ∧
        ∀ y ∈ normalizeAudio [JSNum.fin 0] (JSNum.fin (3 / 10)), y = JSNum.nan) :=
  ⟨by simp, c9_normalize_zero_rms_all_nan [JSNum.fin 0] (by simp)⟩

/-- Witness for C10 at the concrete unhandled type `cancel` (showing in
particular that no message kind for cancellation is handled). -/
theorem c10_unknown_type_witness :
    handleMessage none (Except.error ("load failed")) (Except.error ("process failed"))
        ⟨"cancel", none⟩ =
      (none, [errMsg ("Unknown message type: cancel")], false) :=
  c10_unknown_type_single_error_no_processing none (Except.error ("load failed"))
    (Except.error ("process failed")) ⟨"cancel", none⟩ (by decide) (by decide)
